import Mathlib

/-!
Shallow embedding of the DevOps-GPT client core: the session state machine
of the main application component (tabs, chat transcript, loading flag,
repository-URL draft and its event handlers) and the typed HTTP client
layer (axios instance with its response interceptor, chat / repository /
suggestions API functions).

Machine conventions: JavaScript `Date.now()` instants are modelled as `Nat`
values threaded into each handler as a `now` argument; `Date` timestamps
become `Nat`; browser `File` objects are modelled by their names (`String`);
side effects of a handler (console output, `setTimeout` scheduling, HTTP
requests) are returned as an explicit effect list next to the new state.
-/

namespace DevOpsGPT

/-- The `sender` field of a chat message: `'user' | 'bot'`. -/
inductive Sender where
  | user
  | bot
deriving DecidableEq, Repr

/-- The `Message` interface of the application component (identical in shape
to the `ChatMessage` interface exported by the services layer). -/
structure Message where
  id : String
  text : String
  sender : Sender
  timestamp : Nat
deriving DecidableEq, Repr

/-- The component state held in React `useState` hooks: `activeTab`,
`messages`, `inputText`, `isLoading` (the pending-request flag) and
`repoUrl` (the repository URL draft). -/
structure AppState where
  activeTab : String
  messages : List Message
  inputText : String
  isLoading : Bool
  repoUrl : String
deriving DecidableEq, Repr

/-- Drop leading whitespace characters from a character list. -/
def dropLeadingWs : List Char → List Char
  | [] => []
  | c :: cs => if c.isWhitespace then dropLeadingWs cs else c :: cs

/-- Model of JavaScript `String.prototype.trim`: strip whitespace from both
ends. (Defined by structural recursion so that concrete inputs evaluate
inside the kernel.) -/
def jsTrim (s : String) : String :=
  String.mk ((dropLeadingWs (dropLeadingWs s.data).reverse).reverse)

/-- Text of the seeded greeting message installed by the initial
`useState` call for `messages`. -/
def greetingText : String :=
  "Hello! I\x27m your DevOps GPT assistant. I can help you analyze your codebase, suggest improvements, and answer questions about your infrastructure. Upload a repository or ask me anything!"

/-- Text of the simulated assistant reply appended by the `setTimeout`
callback inside `handleSendMessage`. -/
def demoResponseText : String :=
  "I\x27m analyzing your request. This is a demo response - in the real app, this would connect to your LangChain backend."

/-- The initial component state: tab `chat`, a transcript holding exactly the
seeded greeting, empty drafts, not loading. -/
def initialState : AppState :=
  { activeTab := "chat"
  , messages := [{ id := "1", text := greetingText, sender := .bot, timestamp := 0 }]
  , inputText := ""
  , isLoading := false
  , repoUrl := "" }

/-- Observable side effects a handler performs besides updating state:
`console.log` output, scheduling a `setTimeout` callback, or issuing an
HTTP request through the services layer. -/
inductive Effect where
  | consoleLog (line : String)
  | scheduleTimeout (delayMs : Nat)
  | apiCall (method : String) (path : String)
deriving DecidableEq, Repr

/-- `handleSendMessage`: returns early when `inputText.trim()` is empty;
otherwise appends the user message built from the (untrimmed) draft,
clears the draft, sets `isLoading`, and schedules the 1000 ms simulated
reply. It issues no HTTP request. -/
def handleSendMessage (now : Nat) (s : AppState) : AppState × List Effect :=
  if jsTrim s.inputText = "" then (s, [])
  else
    let userMessage : Message :=
      { id := toString now, text := s.inputText, sender := .user, timestamp := now }
    ({ s with
        messages := s.messages ++ [userMessage]
      , inputText := ""
      , isLoading := true },
     [Effect.scheduleTimeout 1000])

/-- The bot message built inside the `setTimeout` callback of
`handleSendMessage`: id `Date.now() + 1`, fixed demo text. -/
def botReplyMessage (now : Nat) : Message :=
  { id := toString (now + 1), text := demoResponseText, sender := .bot, timestamp := now }

/-- The `setTimeout` callback body of `handleSendMessage`: appends the demo
bot reply and clears `isLoading`. -/
def botReply (now : Nat) (s : AppState) : AppState :=
  { s with messages := s.messages ++ [botReplyMessage now], isLoading := false }

/-- `handleKeyPress`: on Enter without Shift, prevents the default action and
calls `handleSendMessage` (with no check of `isLoading`); otherwise does
nothing. -/
def handleKeyPress (key : String) (shiftKey : Bool) (now : Nat) (s : AppState) :
    AppState × List Effect :=
  if key = "Enter" ∧ shiftKey = false then handleSendMessage now s else (s, [])

/-- `handleFileUpload`: reads only `e.target.files?.[0]`; when a first file is
present it logs its name to the console and nothing more — no state change
and no HTTP request. -/
def handleFileUpload (files : List String) (s : AppState) : AppState × List Effect :=
  match files.head? with
  | some file => (s, [Effect.consoleLog ("File uploaded: " ++ file)])
  | none => (s, [])

/-- `handleRepoSubmit`: when `repoUrl.trim()` is non-empty, logs the URL and
appends one client-synthesized bot message announcing the analysis target;
it does not clear `repoUrl`, does not touch `isLoading`, and issues no HTTP
request. Blank draft: nothing happens. -/
def handleRepoSubmit (now : Nat) (s : AppState) : AppState × List Effect :=
  if jsTrim s.repoUrl = "" then (s, [])
  else
    ({ s with
        messages := s.messages ++
          [{ id := toString now
           , text := "Analyzing repository: " ++ s.repoUrl
           , sender := .bot
           , timestamp := now }] },
     [Effect.consoleLog ("Repository URL: " ++ s.repoUrl)])

/-- The tab button `onClick` handler: `setActiveTab(tab.id)` and nothing
else. -/
def selectTab (t : String) (s : AppState) : AppState :=
  { s with activeTab := t }

/-- The session wrapper around the component state: it also counts the
`setTimeout` callbacks that have been scheduled but have not yet run
(outstanding simulated replies). -/
structure Session where
  state : AppState
  pendingReplies : Nat
deriving DecidableEq, Repr

/-- Session at mount: the initial component state, no outstanding reply. -/
def initialSession : Session :=
  { state := initialState, pendingReplies := 0 }

/-- Number of `setTimeout` registrations among a handler's effects. -/
def countTimeouts (effs : List Effect) : Nat :=
  (effs.filter (fun e =>
    match e with
    | .scheduleTimeout _ => true
    | _ => false)).length

/-- Fold a handler result into the session: adopt the new component state
and record each newly scheduled timeout as an outstanding reply. -/
def applyHandler (sess : Session) (out : AppState × List Effect) : Session :=
  { state := out.1, pendingReplies := sess.pendingReplies + countTimeouts out.2 }

/-- User-interface events the rendered component can deliver: editing either
draft, clicking a tab, clicking the send button, a key press in the chat
textarea, clicking the Connect button, choosing files in the file input,
and the firing of a scheduled reply timeout. -/
inductive Event where
  | setInput (t : String)
  | setRepoUrl (t : String)
  | clickTab (t : String)
  | clickSend
  | keyPress (key : String) (shiftKey : Bool)
  | clickConnect
  | selectFiles (files : List String)
  | replyArrives
deriving DecidableEq, Repr

/-- One step of the event loop. The send button carries
`disabled={!inputText.trim() || isLoading}`, so its click only reaches
`handleSendMessage` when the draft is non-blank and no request is pending;
the Connect button carries `disabled={!repoUrl.trim()}`. The textarea key
handler is invoked unconditionally. A reply timeout can only fire while one
is outstanding. -/
def step (now : Nat) (sess : Session) (ev : Event) : Session :=
  match ev with
  | .setInput t => { sess with state := { sess.state with inputText := t } }
  | .setRepoUrl t => { sess with state := { sess.state with repoUrl := t } }
  | .clickTab t => { sess with state := selectTab t sess.state }
  | .clickSend =>
      if jsTrim sess.state.inputText ≠ "" ∧ sess.state.isLoading = false then
        applyHandler sess (handleSendMessage now sess.state)
      else sess
  | .keyPress k shift => applyHandler sess (handleKeyPress k shift now sess.state)
  | .clickConnect =>
      if jsTrim sess.state.repoUrl ≠ "" then
        applyHandler sess (handleRepoSubmit now sess.state)
      else sess
  | .selectFiles fs => applyHandler sess (handleFileUpload fs sess.state)
  | .replyArrives =>
      if 0 < sess.pendingReplies then
        { state := botReply now sess.state, pendingReplies := sess.pendingReplies - 1 }
      else sess

/-- Run a list of events from a session, handing each step a fresh clock
value. -/
def runFrom (now : Nat) (sess : Session) (evs : List Event) : Session :=
  match evs with
  | [] => sess
  | ev :: rest => runFrom (now + 1) (step now sess ev) rest

/-- Run a list of events from the freshly mounted session. -/
def runEvents (evs : List Event) : Session :=
  runFrom 1 initialSession evs

/-- A session state is reachable when some event list produces it from the
mounted session. -/
def Reachable (sess : Session) : Prop :=
  ∃ evs, runEvents evs = sess

/-! ### The services layer (`api.ts`)

The axios instance is bound to base URL `/api` with JSON content type and a
single response interceptor: on success it passes the response through, on
error it logs `API Error:` with the error and re-throws the same error.
Each API function awaits one request and returns `response.data` (or a
field of it), with no catch block of its own: a transport error propagates
through unchanged. We model the transport outcome of the one request an
API function performs as an explicit `Except` argument, and each API
function as the pair of the request it issues and the
(console-log-lines, result) pair the caller observes. -/

/-- The error surfaced by the transport layer: optional HTTP status plus a
message. -/
structure TransportError where
  status : Option Nat
  message : String
deriving DecidableEq, Repr

/-- An axios response as the client code sees it: the `data` payload. -/
structure AxiosResponse (α : Type) where
  data : α
deriving DecidableEq, Repr

/-- The response interceptor installed with `api.interceptors.response.use`:
success passes through with no log; an error is logged once
(`console.error('API Error:', error)`) and then re-thrown unchanged. -/
def intercept {α : Type} (outcome : Except TransportError (AxiosResponse α)) :
    List String × Except TransportError (AxiosResponse α) :=
  match outcome with
  | .ok r => ([], .ok r)
  | .error e => ([("API Error: " ++ e.message)], .error e)

/-- Request body shapes used by the client: a JSON object (field/value
pairs), a multipart form (ordered field-name/file entries), or no body. -/
inductive ReqBody where
  | jsonFields (fields : List (String × String))
  | multipart (entries : List (String × String))
  | empty
deriving DecidableEq, Repr

/-- An HTTP request as issued through the shared axios instance. -/
structure ApiRequest where
  method : String
  path : String
  body : ReqBody
deriving DecidableEq, Repr

/-- The multipart entries of a request body (empty for non-multipart). -/
def multipartEntries : ReqBody → List (String × String)
  | .multipart entries => entries
  | _ => []

/-- The `ChatMessage` interface of the services layer (same shape as the
component's `Message`). -/
abbrev ChatMessage := Message

/-- The `RepositoryAnalysis.analysis` object: four suggestion lists. -/
structure AnalysisResult where
  dockerfile_suggestions : List String
  kubernetes_suggestions : List String
  cicd_suggestions : List String
  monitoring_suggestions : List String
deriving DecidableEq, Repr

/-- The `RepositoryAnalysis` interface. -/
structure RepositoryAnalysis where
  repository_url : String
  analysis : AnalysisResult
deriving DecidableEq, Repr

/-- Suggestion categories of the `Suggestion` interface. -/
inductive SuggestionType where
  | dockerfile
  | kubernetes
  | cicd
  | monitoring
  | testing
deriving DecidableEq, Repr

/-- Priorities of the `Suggestion` interface. -/
inductive Priority where
  | low
  | medium
  | high
deriving DecidableEq, Repr

/-- The `Suggestion` interface. -/
structure Suggestion where
  type : SuggestionType
  title : String
  description : String
  code : Option String
  priority : Priority
deriving DecidableEq, Repr

/-- Response payload of `/suggestions/generate-tests`. -/
structure TestScriptPayload where
  script : String
deriving DecidableEq, Repr

/-- Response payload of `/suggestions/generate-monitoring`. -/
structure MonitoringConfigPayload where
  config : String
deriving DecidableEq, Repr

/-- `chatAPI.sendMessage`: `POST /chat` with `{ message }`, returning
`response.data` as a `ChatMessage`. -/
def sendMessage (message : String)
    (outcome : Except TransportError (AxiosResponse ChatMessage)) :
    ApiRequest × (List String × Except TransportError ChatMessage) :=
  ({ method := "POST", path := "/chat", body := .jsonFields [("message", message)] },
   ((intercept outcome).1, (intercept outcome).2.map (fun r => r.data)))

/-- `chatAPI.getHistory`: `GET /chat/history`, returning `response.data` as a
`ChatMessage[]`. -/
def getHistory
    (outcome : Except TransportError (AxiosResponse (List ChatMessage))) :
    ApiRequest × (List String × Except TransportError (List ChatMessage)) :=
  ({ method := "GET", path := "/chat/history", body := .empty },
   ((intercept outcome).1, (intercept outcome).2.map (fun r => r.data)))

/-- `repositoryAPI.analyzeRepository`: `POST /repository/analyze` with
`{ repository_url: repoUrl }`, returning `response.data` as a
`RepositoryAnalysis`. -/
def analyzeRepository (repoUrl : String)
    (outcome : Except TransportError (AxiosResponse RepositoryAnalysis)) :
    ApiRequest × (List String × Except TransportError RepositoryAnalysis) :=
  ({ method := "POST", path := "/repository/analyze"
   , body := .jsonFields [("repository_url", repoUrl)] },
   ((intercept outcome).1, (intercept outcome).2.map (fun r => r.data)))

/-- `repositoryAPI.uploadFiles`: builds a `FormData`, appending each file in
input order under the shared field name `files`, and posts it to
`/repository/upload`, returning `response.data` as a `RepositoryAnalysis`. -/
def uploadFiles (files : List String)
    (outcome : Except TransportError (AxiosResponse RepositoryAnalysis)) :
    ApiRequest × (List String × Except TransportError RepositoryAnalysis) :=
  ({ method := "POST", path := "/repository/upload"
   , body := .multipart (files.map (fun f => ("files", f))) },
   ((intercept outcome).1, (intercept outcome).2.map (fun r => r.data)))

/-- `suggestionsAPI.getSuggestions`: `GET /suggestions`. -/
def getSuggestions
    (outcome : Except TransportError (AxiosResponse (List Suggestion))) :
    ApiRequest × (List String × Except TransportError (List Suggestion)) :=
  ({ method := "GET", path := "/suggestions", body := .empty },
   ((intercept outcome).1, (intercept outcome).2.map (fun r => r.data)))

/-- `suggestionsAPI.generateTestScripts`: `POST /suggestions/generate-tests`
with `{ type }`, returning `response.data.script`. -/
def generateTestScripts (flavor : String)
    (outcome : Except TransportError (AxiosResponse TestScriptPayload)) :
    ApiRequest × (List String × Except TransportError String) :=
  ({ method := "POST", path := "/suggestions/generate-tests"
   , body := .jsonFields [("type", flavor)] },
   ((intercept outcome).1, (intercept outcome).2.map (fun r => r.data.script)))

/-- `suggestionsAPI.generateMonitoringConfig`:
`POST /suggestions/generate-monitoring` with `{ type }`, returning
`response.data.config`. -/
def generateMonitoringConfig (flavor : String)
    (outcome : Except TransportError (AxiosResponse MonitoringConfigPayload)) :
    ApiRequest × (List String × Except TransportError String) :=
  ({ method := "POST", path := "/suggestions/generate-monitoring"
   , body := .jsonFields [("type", flavor)] },
   ((intercept outcome).1, (intercept outcome).2.map (fun r => r.data.config)))

/-! ### Concrete fixtures used by counterexamples and witnesses -/

/-- Type "hi", click Send (fires, schedules a reply), then type "again"
while the request is still pending. -/
def c1Trace : List Event :=
  [Event.setInput "hi", Event.clickSend, Event.setInput "again"]

/-- Component state with the repository URL draft filled in. -/
def repoDraftState : AppState :=
  { initialState with repoUrl := "https://github.com/org/repo" }

/-- Component state with chat draft "hello". -/
def helloState : AppState :=
  { initialState with inputText := "hello" }

/-- Component state with whitespace-only chat draft and blank repository
draft. -/
def blankState : AppState :=
  { initialState with inputText := "   ", repoUrl := " " }

/-- Component state with chat draft "foo". -/
def fooState : AppState :=
  { initialState with inputText := "foo" }

/-- Component state with chat draft "bar". -/
def barState : AppState :=
  { initialState with inputText := "bar" }

/-- Component state with another non-blank repository URL draft. -/
def connectState : AppState :=
  { initialState with repoUrl := "https://github.com/acme/widgets" }

/-! ### Theorems -/

/-- Helper: one event-loop step preserves the invariant that the loading
flag is set only while at least one simulated reply is outstanding. -/
lemma step_preserves_loading_inv (now : Nat) (sess : Session) (ev : Event)
    (h : sess.state.isLoading = true → 0 < sess.pendingReplies) :
    (step now sess ev).state.isLoading = true → 0 < (step now sess ev).pendingReplies := by
  cases ev with
  | setInput t => simpa [step] using h
  | setRepoUrl t => simpa [step] using h
  | clickTab t => simpa [step, selectTab] using h
  | clickSend =>
      simp only [step]
      split
      · rename_i hc
        simp [applyHandler, handleSendMessage, hc.1, countTimeouts]
      · exact h
  | keyPress k shift =>
      simp only [step, applyHandler, handleKeyPress]
      split
      · simp only [handleSendMessage]
        split
        · simpa [countTimeouts] using h
        · simp [countTimeouts]
      · simpa [countTimeouts] using h
  | clickConnect =>
      simp only [step]
      split
      · rename_i hc
        simp only [applyHandler, handleRepoSubmit, if_neg hc]
        intro hl
        simp only [countTimeouts, List.filter, List.length]
        simpa using h hl
      · exact h
  | selectFiles fs =>
      cases fs with
      | nil => simpa [step, applyHandler, handleFileUpload, countTimeouts] using h
      | cons f rest => simpa [step, applyHandler, handleFileUpload, countTimeouts] using h
  | replyArrives =>
      simp only [step]
      split
      · simp [botReply]
      · exact h

/-- Helper: running any event list preserves the loading invariant. -/
lemma runFrom_loading_inv (evs : List Event) : ∀ (now : Nat) (sess : Session),
    (sess.state.isLoading = true → 0 < sess.pendingReplies) →
    ((runFrom now sess evs).state.isLoading = true →
      0 < (runFrom now sess evs).pendingReplies) := by
  induction evs with
  | nil => intro now sess h; simpa [runFrom] using h
  | cons ev rest ih =>
      intro now sess h
      simp only [runFrom]
      exact ih _ _ (step_preserves_loading_inv now sess ev h)

/-- C1 (counterexample): after typing "hi", clicking Send, and typing
"again", the session is reachable, the pending flag is busy and the draft
is non-blank — yet pressing Enter fires a second chat submission (the
transcript grows and one more reply is scheduled), contradicting the claim
that no submission can fire while `pendingRequest` is busy. -/
theorem C1_counterexample_enter_fires_while_busy :
    (runEvents c1Trace).state.isLoading = true ∧
    ¬ jsTrim (runEvents c1Trace).state.inputText = "" ∧
    (step 4 (runEvents c1Trace) (Event.keyPress "Enter" false)).state.messages.length
      = (runEvents c1Trace).state.messages.length + 1 ∧
    (step 4 (runEvents c1Trace) (Event.keyPress "Enter" false)).pendingReplies
      = (runEvents c1Trace).pendingReplies + 1 := by decide

/-- C1 (amended): the send-button entry point alone is guarded by
`inputText` non-blank and `pendingRequest` idle — a click while blank or
busy is a no-op. The Enter-key entry point is guarded only by a non-blank
draft, so it fires even while a request is pending, setting the flag busy,
appending the user message and scheduling one more reply. A reply arrival
clears the flag and consumes one outstanding reply. In every reachable
session the flag is busy only while at least one reply is outstanding. -/
theorem C1_send_guard_amended :
    (∀ (now : Nat) (sess : Session),
        jsTrim sess.state.inputText = "" ∨ sess.state.isLoading = true →
        step now sess Event.clickSend = sess) ∧
    (∀ (now : Nat) (sess : Session),
        jsTrim sess.state.inputText ≠ "" →
        (step now sess (Event.keyPress "Enter" false)).state.isLoading = true ∧
        (step now sess (Event.keyPress "Enter" false)).state.messages.length
          = sess.state.messages.length + 1 ∧
        (step now sess (Event.keyPress "Enter" false)).pendingReplies
          = sess.pendingReplies + 1) ∧
    (∀ (now : Nat) (sess : Session),
        0 < sess.pendingReplies →
        (step now sess Event.replyArrives).state.isLoading = false ∧
        (step now sess Event.replyArrives).pendingReplies = sess.pendingReplies - 1) ∧
    (∀ evs : List Event,
        (runEvents evs).state.isLoading = true → 0 < (runEvents evs).pendingReplies) := by
  refine ⟨?_, ?_, ?_, ?_⟩
  · intro now sess h
    simp only [step]
    rw [if_neg]
    rintro ⟨hne, hload⟩
    rcases h with h | h
    · exact hne h
    · rw [h] at hload; exact absurd hload (by simp)
  · intro now sess h
    simp [step, applyHandler, handleKeyPress, handleSendMessage, h, countTimeouts]
  · intro now sess h
    simp [step, h, botReply]
  · intro evs
    exact runFrom_loading_inv evs 1 initialSession (by simp [initialSession, initialState])

/-- C1 (witness): the guards evaluated on the concrete busy session of the
counterexample trace — a Send click there is a no-op, while Enter appends
a message. -/
theorem C1_send_guard_amended_witness :
    step 9 (runEvents c1Trace) Event.clickSend = runEvents c1Trace ∧
    (step 9 (runEvents c1Trace) (Event.keyPress "Enter" false)).state.messages.length
      = (runEvents c1Trace).state.messages.length + 1 := by
  constructor
  · exact C1_send_guard_amended.1 9 (runEvents c1Trace) (Or.inr (by decide))
  · exact (C1_send_guard_amended.2.1 9 (runEvents c1Trace) (by decide)).2.1

/-- C2 (counterexample): with draft URL `https://github.com/org/repo`, the
repository submission appends the announcement message but its only other
effect is a console log — in particular no `POST /repository/analyze`
request is issued, so `analyzeRepository` is never invoked, contradicting
the claim. -/
theorem C2_counterexample_no_ingestion_call :
    (handleRepoSubmit 5 repoDraftState).2
      = [Effect.consoleLog ("Repository URL: https://github.com/org/repo")] ∧
    Effect.apiCall "POST" "/repository/analyze" ∉ (handleRepoSubmit 5 repoDraftState).2 ∧
    (handleRepoSubmit 5 repoDraftState).1.messages.length
      = repoDraftState.messages.length + 1 := by decide

/-- C2 (amended): for every non-blank repository URL draft, firing the
repository-URL submission appends exactly one client-synthesized bot
message announcing the analysis target and logs the URL to the console;
it never issues any HTTP request (the ingestion call is absent — the
handler is a stub). For a blank draft it does nothing. -/
theorem C2_repo_submit_amended (now : Nat) (s : AppState)
    (h : jsTrim s.repoUrl ≠ "") :
    (handleRepoSubmit now s).1.messages
      = s.messages ++
        [{ id := toString now
         , text := "Analyzing repository: " ++ s.repoUrl
         , sender := .bot
         , timestamp := now }] ∧
    (handleRepoSubmit now s).2 = [Effect.consoleLog ("Repository URL: " ++ s.repoUrl)] ∧
    (∀ m p, Effect.apiCall m p ∉ (handleRepoSubmit now s).2) ∧
    (∀ (now2 : Nat) (s2 : AppState), jsTrim s2.repoUrl = "" →
      handleRepoSubmit now2 s2 = (s2, [])) := by
  refine ⟨?_, ?_, ?_, ?_⟩
  · simp [handleRepoSubmit, if_neg h]
  · simp [handleRepoSubmit, if_neg h]
  · intro m p
    simp [handleRepoSubmit, if_neg h]
  · intro now2 s2 h2
    simp [handleRepoSubmit, h2]

/-- C2 (witness): the amended behaviour at the concrete draft state. -/
theorem C2_repo_submit_amended_witness :
    (handleRepoSubmit 5 repoDraftState).2
      = [Effect.consoleLog ("Repository URL: " ++ repoDraftState.repoUrl)] :=
  (C2_repo_submit_amended 5 repoDraftState (by decide)).2.1

/-- C3 (counterexample): selecting the two files `a.zip`, `b.zip` leaves the
state untouched and only logs the first file's name; no
`POST /repository/upload` request is issued, so `uploadFiles` is never
invoked with the selected file set, contradicting the claim. -/
theorem C3_counterexample_upload_not_invoked :
    handleFileUpload ["a.zip", "b.zip"] initialState
      = (initialState, [Effect.consoleLog ("File uploaded: a.zip")]) ∧
    Effect.apiCall "POST" "/repository/upload"
      ∉ (handleFileUpload ["a.zip", "b.zip"] initialState).2 := by
  set_option maxRecDepth 8000 in decide

/-- C3 (amended): the upload transition does fire immediately on selection
with no confirmation step, but it only logs the first selected file's name
to the console: it changes no state, issues no HTTP request (so
`uploadFiles` is never invoked and files beyond the first are ignored),
and an empty selection does nothing. -/
theorem C3_file_selection_amended (f : String) (rest : List String) (s : AppState)
    (now : Nat) (sess : Session) :
    handleFileUpload (f :: rest) s = (s, [Effect.consoleLog ("File uploaded: " ++ f)]) ∧
    (∀ m p, Effect.apiCall m p ∉ (handleFileUpload (f :: rest) s).2) ∧
    handleFileUpload [] s = (s, []) ∧
    step now sess (Event.selectFiles (f :: rest)) = sess := by
  refine ⟨by simp [handleFileUpload], ?_, by simp [handleFileUpload], ?_⟩
  · intro m p
    simp [handleFileUpload]
  · simp [step, applyHandler, handleFileUpload, countTimeouts]

/-- C4: for every non-blank chat draft, firing the submission synchronously
appends exactly one user message carrying the draft text, clears the
draft, sets the pending flag and schedules the 1000 ms reply (issuing no
request yet); when the simulated reply resolves, exactly one bot message
is appended and the flag clears, so length n becomes n+1 then n+2. -/
theorem C4_chat_submission_appends (now later : Nat) (s : AppState)
    (h : jsTrim s.inputText ≠ "") :
    (handleSendMessage now s).1.messages
      = s.messages ++
        [{ id := toString now, text := s.inputText, sender := .user, timestamp := now }] ∧
    (handleSendMessage now s).1.messages.length = s.messages.length + 1 ∧
    (handleSendMessage now s).1.inputText = "" ∧
    (handleSendMessage now s).1.isLoading = true ∧
    (handleSendMessage now s).2 = [Effect.scheduleTimeout 1000] ∧
    (botReply later (handleSendMessage now s).1).messages
      = (handleSendMessage now s).1.messages ++ [botReplyMessage later] ∧
    (botReply later (handleSendMessage now s).1).messages.length = s.messages.length + 2 ∧
    (botReply later (handleSendMessage now s).1).isLoading = false ∧
    (botReplyMessage later).sender = Sender.bot := by
  simp [handleSendMessage, if_neg h, botReply, botReplyMessage]

/-- C4 (witness): submitting "hello" from the seeded state sets the flag
busy and yields a transcript of the seeded length plus two once the reply
resolves, with the flag idle again. -/
theorem C4_chat_submission_appends_witness :
    (handleSendMessage 1 helloState).1.isLoading = true ∧
    (botReply 2 (handleSendMessage 1 helloState).1).messages.length
      = helloState.messages.length + 2 ∧
    (botReply 2 (handleSendMessage 1 helloState).1).isLoading = false := by
  have h := C4_chat_submission_appends 1 2 helloState (by decide)
  exact ⟨h.2.2.2.1, h.2.2.2.2.2.2.1, h.2.2.2.2.2.2.2.1⟩

/-- C5: submitting a blank or whitespace-only chat draft, or a blank
repository URL draft, returns the state unchanged with no effects: no
message, no flag change, no cleared draft, no request. -/
theorem C5_blank_submission_noop :
    (∀ (now : Nat) (s : AppState), jsTrim s.inputText = "" →
      handleSendMessage now s = (s, [])) ∧
    (∀ (now : Nat) (s : AppState), jsTrim s.repoUrl = "" →
      handleRepoSubmit now s = (s, [])) := by
  constructor
  · intro now s h
    simp [handleSendMessage, h]
  · intro now s h
    simp [handleRepoSubmit, h]

/-- C5 (witness): both no-ops at the concrete whitespace-draft state. -/
theorem C5_blank_submission_noop_witness :
    handleSendMessage 3 blankState = (blankState, []) ∧
    handleRepoSubmit 3 blankState = (blankState, []) :=
  ⟨C5_blank_submission_noop.1 3 blankState (by decide),
   C5_blank_submission_noop.2 3 blankState (by decide)⟩

/-- C6: a tab switch sets `activeTab` to the selected tab unconditionally
and changes nothing else — transcript, pending flag, chat draft,
repository draft and the outstanding-reply count are all untouched. -/
theorem C6_tab_switch_frame (t : String) (s : AppState) (now : Nat) (sess : Session) :
    (selectTab t s).activeTab = t ∧
    (selectTab t s).messages = s.messages ∧
    (selectTab t s).isLoading = s.isLoading ∧
    (selectTab t s).inputText = s.inputText ∧
    (selectTab t s).repoUrl = s.repoUrl ∧
    (step now sess (Event.clickTab t)).state = selectTab t sess.state ∧
    (step now sess (Event.clickTab t)).pendingReplies = sess.pendingReplies := by
  simp [selectTab, step]

/-- C7: on any transport error, the response interceptor logs exactly one
`API Error:` line and re-raises the same error unchanged, and every API
client function (chat, repository, suggestions) propagates exactly that
log and that error with no further handling or transformation. -/
theorem C7_interceptor_logs_once_rethrows (e : TransportError)
    (msg url flavor : String) (files : List String) :
    intercept (α := ChatMessage) (.error e) = ([("API Error: " ++ e.message)], .error e) ∧
    (sendMessage msg (.error e)).2 = ([("API Error: " ++ e.message)], .error e) ∧
    (getHistory (.error e)).2 = ([("API Error: " ++ e.message)], .error e) ∧
    (analyzeRepository url (.error e)).2 = ([("API Error: " ++ e.message)], .error e) ∧
    (uploadFiles files (.error e)).2 = ([("API Error: " ++ e.message)], .error e) ∧
    (getSuggestions (.error e)).2 = ([("API Error: " ++ e.message)], .error e) ∧
    (generateTestScripts flavor (.error e)).2 = ([("API Error: " ++ e.message)], .error e) ∧
    (generateMonitoringConfig flavor (.error e)).2
      = ([("API Error: " ++ e.message)], .error e) :=
  ⟨rfl, rfl, rfl, rfl, rfl, rfl, rfl, rfl⟩

/-- C8: `uploadFiles` posts to `/repository/upload` a multipart form whose
entries are exactly the input files, each under the shared field name
`files`, in input order, and returns the response body as the
`RepositoryAnalysis`. -/
theorem C8_uploadFiles_request_shape (files : List String) (resp : RepositoryAnalysis) :
    (uploadFiles files (.ok ⟨resp⟩)).1.method = "POST" ∧
    (uploadFiles files (.ok ⟨resp⟩)).1.path = "/repository/upload" ∧
    (multipartEntries (uploadFiles files (.ok ⟨resp⟩)).1.body).map Prod.fst
      = files.map (fun _ => "files") ∧
    (multipartEntries (uploadFiles files (.ok ⟨resp⟩)).1.body).map Prod.snd = files ∧
    (uploadFiles files (.ok ⟨resp⟩)).2 = ([], .ok resp) := by
  simp [uploadFiles, multipartEntries, List.map_map, intercept]
  rfl

/-- C9: the chat submission path performs no API call at all (in particular
it never invokes `chatAPI.sendMessage`); the reply is simulated locally
after a fixed 1000 ms delay and its text is the fixed demo constant, so
two submissions with different drafts receive replies with identical
text. -/
theorem C9_reply_constant (now1 now2 later1 later2 : Nat) (s1 s2 : AppState)
    (h1 : jsTrim s1.inputText ≠ "") (h2 : jsTrim s2.inputText ≠ "") :
    (handleSendMessage now1 s1).2 = [Effect.scheduleTimeout 1000] ∧
    (∀ m p, Effect.apiCall m p ∉ (handleSendMessage now1 s1).2) ∧
    (botReply later1 (handleSendMessage now1 s1).1).messages.getLast?
      = some (botReplyMessage later1) ∧
    (botReplyMessage later1).text = demoResponseText ∧
    ((botReply later1 (handleSendMessage now1 s1).1).messages.getLast?).map Message.text
      = ((botReply later2 (handleSendMessage now2 s2).1).messages.getLast?).map
          Message.text := by
  refine ⟨by simp [handleSendMessage, if_neg h1], ?_, ?_, by simp [botReplyMessage], ?_⟩
  · intro m p
    simp [handleSendMessage, if_neg h1]
  · simp [handleSendMessage, if_neg h1, botReply]
  · simp [handleSendMessage, if_neg h1, if_neg h2, botReply, botReplyMessage]

/-- C9 (witness): submitting "foo" and "bar" yields replies with the same
text. -/
theorem C9_reply_constant_witness :
    ((botReply 3 (handleSendMessage 1 fooState).1).messages.getLast?).map Message.text
      = ((botReply 4 (handleSendMessage 2 barState).1).messages.getLast?).map
          Message.text :=
  (C9_reply_constant 1 2 3 4 fooState barState (by decide) (by decide)).2.2.2.2

/-- C10: firing the repository submission with a non-blank draft leaves the
URL draft unchanged (it is not cleared), leaves the chat draft unchanged,
and never touches the pending flag or schedules a reply — at the event
level a Connect click preserves `isLoading` and the outstanding-reply
count in every session. -/
theorem C10_repo_submit_frame (now now2 : Nat) (s : AppState) (sess : Session)
    (h : jsTrim s.repoUrl ≠ "") :
    (handleRepoSubmit now s).1.repoUrl = s.repoUrl ∧
    (handleRepoSubmit now s).1.isLoading = s.isLoading ∧
    (handleRepoSubmit now s).1.inputText = s.inputText ∧
    (step now2 sess Event.clickConnect).pendingReplies = sess.pendingReplies ∧
    (step now2 sess Event.clickConnect).state.isLoading = sess.state.isLoading := by
  refine ⟨by simp [handleRepoSubmit, if_neg h], by simp [handleRepoSubmit, if_neg h],
    by simp [handleRepoSubmit, if_neg h], ?_, ?_⟩
  · simp only [step]
    split
    · rename_i hc
      simp [applyHandler, handleRepoSubmit, if_neg hc, countTimeouts]
    · rfl
  · simp only [step]
    split
    · rename_i hc
      simp [applyHandler, handleRepoSubmit, if_neg hc]
    · rfl

/-- C10 (witness): the frame condition at the concrete draft state. -/
theorem C10_repo_submit_frame_witness :
    (handleRepoSubmit 7 connectState).1.repoUrl = connectState.repoUrl ∧
    (handleRepoSubmit 7 connectState).1.isLoading = connectState.isLoading := by
  have h := C10_repo_submit_frame 7 7 connectState initialSession (by decide)
  exact ⟨h.1, h.2.1⟩

end DevOpsGPT

